import Mathlib

/-!
# Verification of the state-channel router client (`src/src/router/client.rs`)

A shallow embedding of the `RouterClient` orchestrator: the reconciliation
routine `mk_state_channel`, the protocol message handlers, the packet
queue / offer discipline, and the event loop of `run`.

External collaborators (the `RouterStore`, the `StateChannelService`
transport duplex, and the `StateChannel` validator operations) are not part
of the repository source; they are modelled from the spec's collaborator
contracts (§3, §4.3, §6).  The validator operations and message
constructors are kept abstract as an `Env` of oracle functions, so every
theorem quantifies over their behaviour.
-/

namespace RouterClientModel

/-- Channel id / store key (`sc.id` bytes, abstracted). -/
abbrev SCId := Nat

/-- A constructed/trusted state channel record (`StateChannel`).
The wire payload and internal causal sequence are abstracted to naturals. -/
structure StateChannel where
  id : SCId
  seq : Nat
  payload : Nat
  deriving Repr, DecidableEq

/-- `StateChannel::id_key()`: the store key derived from the channel id. -/
def StateChannel.id_key (sc : StateChannel) : SCId := sc.id

/-- Wire-format channel state (`BlockchainStateChannelV1`). -/
structure BlockchainStateChannelV1 where
  id : SCId
  data : Nat
  deriving Repr, DecidableEq

/-- A queued uplink packet with its hold-time accounting (`QuePacket`). -/
structure QuePacket where
  packet : Nat
  hold_time : Nat
  deriving Repr, DecidableEq

/-- `QuePacket::from(packet)`: wrap a fresh uplink packet (hold time starts
at zero). -/
def QuePacket.from_packet (p : Nat) : QuePacket := ⟨p, 0⟩

/-- The channel-validation-specific error kind
(`error::StateChannelError`). -/
inductive StateChannelError where
  | notFound
  | invalid (code : Nat)
  deriving Repr, DecidableEq

/-- The crate error type (`error::Error`), split into the
`Error::StateChannel` variant the reconciliation code discriminates on,
the `Error::custom` protocol violations, and every other kind. -/
inductive Error where
  | stateChannel (e : StateChannelError)
  | custom (msg : String)
  | other (code : Nat)
  deriving Repr, DecidableEq

/-- Modelled from the spec: `RouterStore` is not under `src/`.  Per §3 and
§6 it holds the trusted channels (keyed, `overwrite` replacing), an
append-only audit log of rejected candidates, and at most one FIFO queue
of waiting packets per client instance. -/
structure RouterStore where
  channels : List (SCId × StateChannel)
  appendLog : List (SCId × StateChannel)
  waiting : List QuePacket
  deriving Repr, DecidableEq

/-- Modelled from the spec: `Store.get(id) -> Result<Option<Channel>>`,
the trusted record stored under the given key. -/
def RouterStore.get_state_channel (st : RouterStore) (id : SCId) :
    Option StateChannel :=
  (st.channels.find? (fun kv => kv.1 == id)).map (·.2)

/-- Modelled from the spec: `Store.overwrite(key, channel)` replaces the
trusted record under `key`. -/
def RouterStore.overwrite_state_channel (st : RouterStore) (key : SCId)
    (sc : StateChannel) : RouterStore :=
  { st with channels := (key, sc) :: st.channels.filter (fun kv => kv.1 != key) }

/-- Modelled from the spec: `Store.append(key, channel)` records a
rejected candidate for audit without touching the trusted records. -/
def RouterStore.append_state_channel (st : RouterStore) (key : SCId)
    (sc : StateChannel) : RouterStore :=
  { st with appendLog := st.appendLog ++ [(key, sc)] }

/-- Modelled from the spec: `Store.trusted_count()`. -/
def RouterStore.state_channel_count (st : RouterStore) : Nat :=
  st.channels.length

/-- Modelled from the spec: dequeue the oldest waiting packet (FIFO). -/
def RouterStore.deque_packet (st : RouterStore) :
    Option QuePacket × RouterStore :=
  match st.waiting with
  | [] => (none, st)
  | p :: rest => (some p, { st with waiting := rest })

/-- Modelled from the spec: pop the oldest waiting packet for an offer
(same single FIFO queue, §3 "At most one FIFO queue of waiting packets"). -/
def RouterStore.pop_waiting_packet (st : RouterStore) :
    Option QuePacket × RouterStore :=
  st.deque_packet

/-- Modelled from the spec: re-queue a packet as a waiting packet (back of
the FIFO queue). -/
def RouterStore.que_packet (st : RouterStore) (p : QuePacket) : RouterStore :=
  { st with waiting := st.waiting ++ [p] }

/-- Modelled from the spec: the `StateChannelService` transport duplex is
not under `src/`.  Per §6 it offers `connect()` (idempotent trigger,
counted here), `send(message)` (recorded; capacity is the transport's
remaining offer budget, consumed one unit per send), and `capacity()`. -/
structure StateChannelService where
  capacity : Nat
  sent : List Nat
  connects : Nat
  deriving Repr, DecidableEq

/-- Modelled from the spec: `connect()` triggers a connect request. -/
def StateChannelService.connect (s : StateChannelService) :
    StateChannelService :=
  { s with connects := s.connects + 1 }

/-- Modelled from the spec: `send(message)` delivers a framed message and
consumes one unit of capacity. -/
def StateChannelService.send (s : StateChannelService) (m : Nat) :
    StateChannelService :=
  { s with sent := s.sent ++ [m], capacity := s.capacity - 1 }

/-- The external validator / message-construction collaborators (§2 item 3,
§6), kept as oracles so theorems hold for every behaviour:
`StateChannel::with_sc` (merge), `StateChannel::from_sc` (construct from
wire, may consult the gateway), `is_valid_sc_for`, `is_valid_for`,
`is_valid_purchase`, and the `StateChannelMessage::offer` / `packet`
constructors (closing over keypair and region). -/
structure Env where
  with_sc : StateChannel → BlockchainStateChannelV1 → Except Error StateChannel
  from_sc : BlockchainStateChannelV1 → Except Error StateChannel
  is_valid_sc_for : StateChannel → StateChannel → Except Error Unit
  is_valid_for : StateChannel → Except Error Unit
  is_valid_purchase : StateChannel → StateChannel → Option QuePacket → Except Error Unit
  mk_offer_msg : QuePacket → Except Error Nat
  mk_packet_msg : QuePacket → Except Error Nat

/-- The mutable state of a `RouterClient` instance: the store, the
state-channel transport service, the swappable gateway handle, and the
downlink sink (modelled as the list of delivered downlinks). -/
structure RouterClient where
  store : RouterStore
  state_channel : StateChannelService
  gateway : Nat
  downlinks : List Nat
  deriving Repr, DecidableEq

/-- `RouterClient::mk_state_channel` (client.rs:160-224): reconcile an
incoming wire channel state against the store, applying the supplied
acceptance predicate `final_validation` before any overwrite; a
channel-validation-specific basic-validity failure appends the candidate
to the audit log. -/
def mk_state_channel (env : Env) (store : RouterStore)
    (sc : Option BlockchainStateChannelV1)
    (final_validation : Option StateChannel → StateChannel → Except Error Unit) :
    Except Error StateChannel × RouterStore :=
  match sc with
  | none => (.error (.stateChannel .notFound), store)
  | some sc =>
    match store.get_state_channel sc.id with
    | some known_sc =>
      if sc.id = known_sc.id then
        match env.with_sc known_sc sc with
        | .error e => (.error e, store)
        | .ok merged =>
          match final_validation (some known_sc) merged with
          | .error e => (.error e, store)
          | .ok () =>
            (.ok merged, store.overwrite_state_channel merged.id_key merged)
      else
        -- the new sc has a different id
        match env.from_sc sc with
        | .error e => (.error e, store)
        | .ok cand =>
          match env.is_valid_sc_for known_sc cand with
          | .ok () =>
            match final_validation (some known_sc) cand with
            | .ok () =>
              (.ok cand, store.overwrite_state_channel cand.id_key cand)
            | .error e => (.error e, store)
          | .error (.stateChannel e) =>
            (.error (.stateChannel e),
              store.append_state_channel cand.id_key cand)
          | .error e => (.error e, store)
    | none =>
      -- No previously known sc with that id
      match env.from_sc sc with
      | .error e => (.error e, store)
      | .ok cand =>
        match env.is_valid_for cand with
        | .ok () =>
          match final_validation none cand with
          | .ok () =>
            (.ok cand, store.overwrite_state_channel cand.id_key cand)
          | .error e => (.error e, store)
        | .error (.stateChannel e) =>
          (.error (.stateChannel e),
            store.append_state_channel cand.id_key cand)
        | .error e => (.error e, store)

/-- `RouterClient::send_offer` (client.rs:249-258): construct an offer
message for the packet and send it over the state-channel service. -/
def send_offer (env : Env) (cl : RouterClient) (packet : QuePacket) :
    Except Error Unit × RouterClient :=
  match env.mk_offer_msg packet with
  | .ok message =>
    (.ok (), { cl with state_channel := cl.state_channel.send message })
  | .error e => (.error e, cl)

/-- `RouterClient::send_packet` (client.rs:260-274): sending `None` is a
no-op returning success; otherwise construct the purchase-time packet
message (with hold time) and send it. -/
def send_packet (env : Env) (cl : RouterClient) (packet : Option QuePacket) :
    Except Error Unit × RouterClient :=
  match packet with
  | none => (.ok (), cl)
  | some packet =>
    match env.mk_packet_msg packet with
    | .ok message =>
      (.ok (), { cl with state_channel := cl.state_channel.send message })
    | .error e => (.error e, cl)

/-- The `while let Some(packet) = pop_waiting_packet()` body of
`RouterClient::send_packet_offers` (client.rs:239-245): pop the oldest
waiting packet, send an offer for it, re-queue it, and stop when capacity
reaches zero.  Terminates because each successful send consumes a unit of
capacity. -/
def send_packet_offers_loop (env : Env) (cl : RouterClient) :
    Except Error Unit × RouterClient :=
  match cl.store.pop_waiting_packet with
  | (none, _) => (.ok (), cl)
  | (some packet, store1) =>
    match h : send_offer env { cl with store := store1 } packet with
    | (.error e, cl2) => (.error e, cl2)
    | (.ok (), cl2) =>
      let cl3 : RouterClient := { cl2 with store := cl2.store.que_packet packet }
      if h0 : cl3.state_channel.capacity = 0 then (.ok (), cl3)
      else send_packet_offers_loop env cl3
termination_by cl.state_channel.capacity
decreasing_by
  simp only [RouterStore.que_packet] at h0 ⊢
  unfold send_offer at h
  cases hm : env.mk_offer_msg packet <;> rw [hm] at h
  · simp at h
  · rw [Prod.mk.injEq] at h
    rw [← h.2] at h0 ⊢
    simp only [StateChannelService.send] at h0 ⊢
    omega

/-- `RouterClient::send_packet_offers` (client.rs:235-247): the offer
flood; returns immediately when the transport reports zero capacity. -/
def send_packet_offers (env : Env) (cl : RouterClient) :
    Except Error Unit × RouterClient :=
  if cl.state_channel.capacity = 0 then (.ok (), cl)
  else send_packet_offers_loop env cl

/-- `RouterClient::handle_downlink` (client.rs:226-233): forward the
packet to the downlink sink (a sink failure is logged and dropped). -/
def handle_downlink (cl : RouterClient) (packet : Nat) : RouterClient :=
  { cl with downlinks := cl.downlinks ++ [packet] }

/-- The acceptance predicate the Purchase handler passes to
`mk_state_channel` (client.rs:134-139): valid only if the purchase matches
the known channel and references the dequeued packet; accepted outright
when no channel is known. -/
def purchase_validation (env : Env) (packet : Option QuePacket) :
    Option StateChannel → StateChannel → Except Error Unit :=
  fun known_sc new_sc =>
    match known_sc with
    | some known_sc => env.is_valid_purchase known_sc new_sc packet
    | none => .ok ()

/-- The six inbound `blockchain_state_channel_message_v1::Msg` variants.
`response` carries the converted downlink packet when convertible;
`purchase` and `banner` carry the optional wire channel state. -/
inductive Msg where
  | response (packet : Option Nat)
  | packet (d : Nat)
  | offer (d : Nat)
  | purchase (sc : Option BlockchainStateChannelV1)
  | banner (sc : Option BlockchainStateChannelV1)
  | reject
  deriving Repr, DecidableEq

/-- `RouterClient::handle_state_channel_message` (client.rs:117-158): the
protocol state machine over the six inbound message variants. -/
def handle_state_channel_message (env : Env) (cl : RouterClient)
    (message : Msg) : Except Error Unit × RouterClient :=
  match message with
  | .response packet =>
    match packet with
    | some packet => (.ok (), handle_downlink cl packet)
    | none => (.ok (), cl)
  | .packet _ => (.error (.custom "unexpected state channel packet message"), cl)
  | .offer _ => (.error (.custom "unexpected state channel offer message"), cl)
  | .purchase sc =>
    let dq := cl.store.deque_packet
    let packet := dq.1
    let cl1 : RouterClient := { cl with store := dq.2 }
    match mk_state_channel env cl1.store sc (purchase_validation env packet) with
    | (.error e, store2) => (.error e, { cl1 with store := store2 })
    | (.ok _, store2) => send_packet env { cl1 with store := store2 } packet
  | .banner sc =>
    match mk_state_channel env cl.store sc (fun _ _ => .ok ()) with
    | (.error e, store2) => (.error e, { cl with store := store2 })
    | (.ok _, store2) => send_packet_offers env { cl with store := store2 }
  | .reject =>
    let dq := cl.store.deque_packet
    (.ok (), { cl with store := dq.2 })

/-- `RouterClient::handle_uplink` (client.rs:102-115): trigger a connect
when the store holds no trusted channel yet, then send the packet
immediately as a direct packet message. -/
def handle_uplink (env : Env) (cl : RouterClient) (uplink : Nat) :
    Except Error Unit × RouterClient :=
  let cl1 : RouterClient :=
    if cl.store.state_channel_count = 0 then
      { cl with state_channel := cl.state_channel.connect }
    else cl
  send_packet env cl1 (some (QuePacket.from_packet uplink))

/-- The `Dispatch` items arriving on the uplinks channel. -/
inductive Dispatch where
  | packet (p : Nat)
  | gateway (g : Nat)
  deriving Repr, DecidableEq

/-- One ready event source per iteration of the `tokio::select!` loop in
`RouterClient::run` (client.rs:64-99): the shutdown signal, the uplinks
channel (`none` = closed), or the inbound state-channel message stream
(`Except…`: the transport result; outer `Option` `none` = clean stream
end; inner `Option` = the framed message's optional inner payload). -/
inductive LoopEvent where
  | shutdown
  | uplink (d : Option Dispatch)
  | sc_message (m : Except Error (Option (Option Msg)))
  deriving Repr

/-- One iteration of `RouterClient::run` (client.rs:64-99) at a ready
event: `none` means the loop returns `Ok(())`; `some` is the state the
next iteration starts from.  Handler errors are logged and the loop
continues. -/
def run_step (env : Env) (cl : RouterClient) (ev : LoopEvent) :
    Option RouterClient :=
  match ev with
  | .shutdown => none
  | .uplink none => some cl
  | .uplink (some (.packet p)) => some (handle_uplink env cl p).2
  | .uplink (some (.gateway g)) => some { cl with gateway := g }
  | .sc_message (.ok (some (some m))) =>
    some (handle_state_channel_message env cl m).2
  | .sc_message (.ok (some none)) => some cl
  | .sc_message (.ok none) => none
  | .sc_message (.error _) => none

/-- `RouterClient::run` over a trace of ready events: `some` is the final
state when the loop returned `Ok(())` within the trace, `none` when the
trace ended with the loop still running. -/
def run (env : Env) (cl : RouterClient) : List LoopEvent → Option RouterClient
  | [] => none
  | ev :: evs =>
    match run_step env cl ev with
    | none => some cl
    | some cl1 => run env cl1 evs

/-- The argument to the single `accept(known, candidate)` consultation a
run of `mk_state_channel` performs, when control reaches it: `none` when an
earlier stage (payload presence, merge, construction, basic validity)
already failed.  Mirrors the control flow of client.rs:160-224 up to the
`final_validation` call sites. -/
def final_validation_args (env : Env) (store : RouterStore)
    (w : BlockchainStateChannelV1) :
    Option (Option StateChannel × StateChannel) :=
  match store.get_state_channel w.id with
  | some known_sc =>
    if w.id = known_sc.id then
      match env.with_sc known_sc w with
      | .ok merged => some (some known_sc, merged)
      | .error _ => none
    else
      match env.from_sc w with
      | .ok cand =>
        match env.is_valid_sc_for known_sc cand with
        | .ok () => some (some known_sc, cand)
        | .error _ => none
      | .error _ => none
  | none =>
    match env.from_sc w with
    | .ok cand =>
      match env.is_valid_for cand with
      | .ok () => some (none, cand)
      | .error _ => none
    | .error _ => none

/-- The basic validity check of a freshly constructed candidate
(client.rs:185 and 207): `is_valid_sc_for` against a trusted channel with
a different id, `is_valid_for` when none is trusted. -/
def basic_validity (env : Env) (known : Option StateChannel)
    (cand : StateChannel) : Except Error Unit :=
  match known with
  | some known_sc => env.is_valid_sc_for known_sc cand
  | none => env.is_valid_for cand

/-- Left rotation of the waiting queue: what one iteration of the offer
flood does to it (pop the oldest, re-queue it at the back). -/
def rotate1 (l : List QuePacket) : List QuePacket :=
  match l with
  | [] => []
  | p :: rest => rest ++ [p]

/-- `n`-fold left rotation. -/
def rotate_iter : Nat → List QuePacket → List QuePacket
  | 0, l => l
  | n + 1, l => rotate_iter n (rotate1 l)

/-! Concrete collaborator instances used to witness the theorems below on
closed inputs. -/

/-- A benign validator environment: every check passes, merge advances the
sequence, construction copies the wire payload. -/
def envBase : Env where
  with_sc := fun known w => .ok ⟨known.id, known.seq + 1, w.data⟩
  from_sc := fun w => .ok ⟨w.id, 0, w.data⟩
  is_valid_sc_for := fun _ _ => .ok ()
  is_valid_for := fun _ => .ok ()
  is_valid_purchase := fun _ _ _ => .ok ()
  mk_offer_msg := fun p => .ok (2 * p.packet)
  mk_packet_msg := fun p => .ok (2 * p.packet + 1)

/-- A validator environment whose basic validity check rejects every
candidate with a channel-validation-specific error. -/
def envInvalid : Env :=
  { envBase with is_valid_for := fun _ => .error (.stateChannel (.invalid 3)) }

/-- A validator environment whose purchase validation rejects everything:
used to witness that it is not consulted for unknown channel ids. -/
def envNoPurchase : Env :=
  { envBase with is_valid_purchase := fun _ _ _ => .error (.other 9) }

/-- An empty store. -/
def storeEmpty : RouterStore := ⟨[], [], []⟩

/-- A store trusting channel 1. -/
def storeOne : RouterStore := ⟨[(1, ⟨1, 0, 10⟩)], [], []⟩

/-- A wire update for channel 1. -/
def wireOne : BlockchainStateChannelV1 := ⟨1, 42⟩

/-- A client with three waiting packets, two units of offer capacity, and
no trusted channel. -/
def clientThreeWaiting : RouterClient :=
  { store := { channels := [], appendLog := [],
               waiting := [⟨10, 0⟩, ⟨11, 0⟩, ⟨12, 0⟩] }
    state_channel := { capacity := 2, sent := [], connects := 0 }
    gateway := 0
    downlinks := [] }

/-- A client with one waiting packet and a trusted channel 1. -/
def clientOneWaiting : RouterClient :=
  { store := { channels := [(1, ⟨1, 0, 10⟩)], appendLog := [],
               waiting := [⟨10, 0⟩] }
    state_channel := { capacity := 2, sent := [], connects := 0 }
    gateway := 0
    downlinks := [] }

/-- The store after `clientOneWaiting` accepts the merged channel 1. -/
def storePurchased : RouterStore := ⟨[(1, ⟨1, 1, 42⟩)], [], []⟩

/-- `clientThreeWaiting` after an offer flood with capacity 2: two offers
sent, capacity exhausted, queue rotated by two. -/
def clientThreeAfter : RouterClient :=
  { store := { channels := [], appendLog := [],
               waiting := [⟨12, 0⟩, ⟨10, 0⟩, ⟨11, 0⟩] }
    state_channel := { capacity := 0, sent := [20, 22], connects := 0 }
    gateway := 0
    downlinks := [] }

/-! ## Helper lemmas -/

/-- `send_offer` never touches the store. -/
theorem send_offer_store (env : Env) (cl cl2 : RouterClient) (p : QuePacket)
    (r : Except Error Unit) (h : send_offer env cl p = (r, cl2)) :
    cl2.store = cl.store := by
  unfold send_offer at h
  cases hm : env.mk_offer_msg p <;> rw [hm] at h <;>
    rw [Prod.mk.injEq] at h <;> rw [← h.2]

/-- `send_offer` on success consumes one unit of capacity, records exactly
one message, and leaves the connect count alone. -/
theorem send_offer_service (env : Env) (cl cl2 : RouterClient)
    (p : QuePacket) (h : send_offer env cl p = (.ok (), cl2)) :
    cl2.state_channel.capacity = cl.state_channel.capacity - 1 ∧
    cl2.state_channel.sent.length = cl.state_channel.sent.length + 1 ∧
    cl2.state_channel.connects = cl.state_channel.connects := by
  unfold send_offer at h
  cases hm : env.mk_offer_msg p <;> rw [hm] at h
  · simp at h
  · rw [Prod.mk.injEq] at h
    rw [← h.2]
    simp [StateChannelService.send]

/-- Reconciliation never touches the waiting-packet queue. -/
theorem mk_state_channel_waiting (env : Env) (store : RouterStore)
    (sc : Option BlockchainStateChannelV1)
    (fv : Option StateChannel → StateChannel → Except Error Unit) :
    (mk_state_channel env store sc fv).2.waiting = store.waiting := by
  unfold mk_state_channel
  repeat' split
  all_goals rfl

/-! ## C7: Reject handling -/

/-- C7: an inbound Reject message unconditionally returns success and
removes exactly the oldest packet from the waiting queue (a no-op on an
empty queue), leaving the remaining packets in order and everything else
— trusted channels, audit log, transport service, downlinks — untouched. -/
theorem reject_removes_exactly_oldest (env : Env) (cl : RouterClient) :
    handle_state_channel_message env cl .reject =
      (.ok (), { cl with
        store := { cl.store with waiting := cl.store.waiting.tail } }) := by
  obtain ⟨⟨chs, al, wl⟩, scs, gw, dl⟩ := cl
  cases wl <;> rfl

/-! ## C8: event-loop termination discipline -/

/-- C8: one iteration of `run` terminates the loop (returning success)
exactly at a shutdown signal, a clean end of the inbound message stream,
or a transport error on that stream; in particular uplink-handler and
message-handler errors, a closed uplinks channel, and payload-less
messages all continue the loop. -/
theorem run_terminates_iff (env : Env) (cl : RouterClient) (ev : LoopEvent) :
    run_step env cl ev = none ↔
      (ev = .shutdown ∨ ev = .sc_message (.ok none) ∨
        ∃ e, ev = .sc_message (.error e)) := by
  cases ev with
  | shutdown => simp [run_step]
  | uplink d =>
    cases d with
    | none => simp [run_step]
    | some dd => cases dd <;> simp [run_step]
  | sc_message m =>
    cases m with
    | error e => simp [run_step]
    | ok o =>
      cases o with
      | none => simp [run_step]
      | some mm => cases mm <;> simp [run_step]

/-! ## C1: reconciliation never persists on predicate rejection -/

/-- C1: whenever a run of the reconciliation routine `mk_state_channel`
reaches the application-supplied acceptance predicate and the predicate
returns failure, the returned error is the predicate's error unchanged and
the store — trusted records and audit log alike — is exactly what it was
before the call. -/
theorem reconcile_no_persist_on_predicate_rejection
    (env : Env) (store : RouterStore) (w : BlockchainStateChannelV1)
    (fv : Option StateChannel → StateChannel → Except Error Unit)
    (known : Option StateChannel) (cand : StateChannel) (e : Error)
    (hargs : final_validation_args env store w = some (known, cand))
    (hfv : fv known cand = .error e) :
    mk_state_channel env store (some w) fv = (.error e, store) := by
  unfold final_validation_args at hargs
  unfold mk_state_channel
  cases hget : store.get_state_channel w.id with
  | none =>
    simp only [hget] at hargs ⊢
    cases hfrom : env.from_sc w with
    | error e2 =>
      simp only [hfrom] at hargs
      exact Option.noConfusion hargs
    | ok c =>
      simp only [hfrom] at hargs ⊢
      cases hv : env.is_valid_for c with
      | error e2 =>
        simp only [hv] at hargs
        exact Option.noConfusion hargs
      | ok u =>
        cases u
        simp only [hv, Option.some.injEq, Prod.mk.injEq] at hargs ⊢
        obtain ⟨h1, h2⟩ := hargs
        subst h1; subst h2
        simp [hfv]
  | some k =>
    simp only [hget] at hargs ⊢
    by_cases hid : w.id = k.id
    · simp only [if_pos hid] at hargs ⊢
      cases hmerge : env.with_sc k w with
      | error e2 =>
        simp only [hmerge] at hargs
        exact Option.noConfusion hargs
      | ok merged =>
        simp only [hmerge, Option.some.injEq, Prod.mk.injEq] at hargs ⊢
        obtain ⟨h1, h2⟩ := hargs
        subst h1; subst h2
        simp [hfv]
    · simp only [if_neg hid] at hargs ⊢
      cases hfrom : env.from_sc w with
      | error e2 =>
      simp only [hfrom] at hargs
      exact Option.noConfusion hargs
      | ok c =>
        simp only [hfrom] at hargs ⊢
        cases hv : env.is_valid_sc_for k c with
        | error e2 =>
        simp only [hv] at hargs
        exact Option.noConfusion hargs
        | ok u =>
          cases u
          simp only [hv, Option.some.injEq, Prod.mk.injEq] at hargs ⊢
          obtain ⟨h1, h2⟩ := hargs
          subst h1; subst h2
          simp [hv, hfv]

/-- Witness for C1 at concrete inputs: a trusted channel 1, a wire update
with the same id, merge succeeding, a predicate that rejects with an
arbitrary non-channel error. -/
theorem reconcile_no_persist_on_predicate_rejection_witness :
    mk_state_channel envBase storeOne (some wireOne)
        (fun _ _ => .error (.other 7)) =
      (.error (.other 7), storeOne) :=
  reconcile_no_persist_on_predicate_rejection envBase storeOne wireOne
    (fun _ _ => .error (.other 7)) (some ⟨1, 0, 10⟩) ⟨1, 1, 42⟩ (.other 7)
    (by decide) rfl

/-! ## C2: audit on validity failure -/

/-- C2: when reconciliation constructs a fresh candidate (the trusted
record for the incoming id is absent, or carries a different id) and the
basic validity check fails with a channel-validation-specific error, the
candidate is appended to the audit log exactly once under its own id key
and that same error is returned, with the trusted records untouched; any
other failure kind propagates with the store fully untouched; and a
passing validity check never appends. -/
theorem audit_on_validity_failure
    (env : Env) (store : RouterStore) (w : BlockchainStateChannelV1)
    (fv : Option StateChannel → StateChannel → Except Error Unit)
    (known : Option StateChannel) (cand : StateChannel)
    (hget : store.get_state_channel w.id = known)
    (hdiff : ∀ k, known = some k → w.id ≠ k.id)
    (hfrom : env.from_sc w = .ok cand) :
    (∀ e, basic_validity env known cand = .error (.stateChannel e) →
      mk_state_channel env store (some w) fv =
        (.error (.stateChannel e),
          store.append_state_channel cand.id_key cand) ∧
      (store.append_state_channel cand.id_key cand).channels =
        store.channels) ∧
    (∀ e, basic_validity env known cand = .error e →
      (∀ se, e ≠ .stateChannel se) →
      mk_state_channel env store (some w) fv = (.error e, store)) ∧
    (basic_validity env known cand = .ok () →
      (mk_state_channel env store (some w) fv).2.appendLog =
        store.appendLog) := by
  unfold mk_state_channel
  cases known with
  | none =>
    simp only [hget, hfrom, basic_validity]
    refine ⟨?_, ?_, ?_⟩
    · intro e hv
      simp [hv, RouterStore.append_state_channel]
    · intro e hv hne
      cases e with
      | stateChannel se => exact absurd rfl (hne se)
      | custom m => simp only [hv]
      | other c => simp only [hv]
    · intro hv
      simp only [hv]
      cases hfv : fv none cand with
      | error e2 => simp only [hfv]
      | ok u =>
        cases u
        simp only [hfv, RouterStore.overwrite_state_channel]
  | some k =>
    have hid : w.id ≠ k.id := hdiff k rfl
    simp only [hget, hfrom, if_neg hid, basic_validity]
    refine ⟨?_, ?_, ?_⟩
    · intro e hv
      simp [hv, RouterStore.append_state_channel]
    · intro e hv hne
      cases e with
      | stateChannel se => exact absurd rfl (hne se)
      | custom m => simp only [hv]
      | other c => simp only [hv]
    · intro hv
      simp only [hv]
      cases hfv : fv (some k) cand with
      | error e2 => simp only [hfv]
      | ok u =>
        cases u
        simp only [hfv, RouterStore.overwrite_state_channel]

/-- Witness for C2 at concrete inputs: empty store, candidate failing the
basic validity check with a channel-validation error; the candidate lands
in the audit log once and the error comes back unmasked. -/
theorem audit_on_validity_failure_witness :
    mk_state_channel envInvalid storeEmpty (some wireOne)
        (fun _ _ => .ok ()) =
      (.error (.stateChannel (.invalid 3)),
        storeEmpty.append_state_channel 1 ⟨1, 0, 42⟩) ∧
      (storeEmpty.append_state_channel 1 ⟨1, 0, 42⟩).channels =
        storeEmpty.channels :=
  (audit_on_validity_failure envInvalid storeEmpty wireOne (fun _ _ => .ok ())
      none ⟨1, 0, 42⟩ rfl (fun k h => Option.noConfusion h) rfl).1
    (.invalid 3) rfl

/-! ## C10: purchase for an unknown channel id skips purchase validation -/

/-- C10: when the Purchase handler's reconciliation finds no trusted
record for the carried channel id, the acceptance predicate it supplied
returns success unconditionally: whatever the purchase validator would
say, and whatever packet was dequeued, reconciliation succeeds and
persists the candidate as trusted, provided only construction and basic
validity for the client's own identity pass. -/
theorem purchase_accepted_without_packet_check
    (env : Env) (store : RouterStore) (w : BlockchainStateChannelV1)
    (cand : StateChannel)
    (hget : store.get_state_channel w.id = none)
    (hfrom : env.from_sc w = .ok cand)
    (hvalid : env.is_valid_for cand = .ok ()) :
    ∀ (ivp : StateChannel → StateChannel → Option QuePacket → Except Error Unit)
      (packet : Option QuePacket),
      mk_state_channel { env with is_valid_purchase := ivp } store (some w)
          (purchase_validation { env with is_valid_purchase := ivp } packet) =
        (.ok cand, store.overwrite_state_channel cand.id_key cand) := by
  intro ivp packet
  unfold mk_state_channel
  simp only [hget, hfrom, hvalid, purchase_validation]

/-- Witness for C10 at concrete inputs: a purchase validator that rejects
everything still lets a purchase for an unknown channel id through, and
the channel is persisted as trusted. -/
theorem purchase_accepted_without_packet_check_witness :
    mk_state_channel envNoPurchase storeEmpty (some wireOne)
        (purchase_validation envNoPurchase (some ⟨5, 0⟩)) =
      (.ok ⟨1, 0, 42⟩,
        storeEmpty.overwrite_state_channel 1 ⟨1, 0, 42⟩) :=
  purchase_accepted_without_packet_check envBase storeEmpty wireOne
    ⟨1, 0, 42⟩ rfl rfl rfl (fun _ _ _ => .error (.other 9)) (some ⟨5, 0⟩)

/-- `send_packet` never touches the store. -/
theorem send_packet_store (env : Env) (cl : RouterClient)
    (p : Option QuePacket) : (send_packet env cl p).2.store = cl.store := by
  unfold send_packet
  cases p with
  | none => rfl
  | some q => cases hm : env.mk_packet_msg q <;> simp [hm]

/-- Sending `None` is a no-op returning success. -/
theorem send_packet_none (env : Env) (cl : RouterClient) :
    send_packet env cl none = (.ok (), cl) := rfl

/-! ## C9: purchase reconciliation failure discards the dequeued packet -/

/-- C9: when the waiting queue is non-empty and the Purchase handler's
reconciliation fails with any error, the handler returns that error, the
packet dequeued at the start is gone from the waiting queue (not
re-queued), and nothing is sent. -/
theorem purchase_failure_discards_packet
    (env : Env) (cl : RouterClient) (sc : Option BlockchainStateChannelV1)
    (p : QuePacket) (rest : List QuePacket) (e : Error) (store2 : RouterStore)
    (hw : cl.store.waiting = p :: rest)
    (hmk : mk_state_channel env { cl.store with waiting := rest } sc
        (purchase_validation env (some p)) = (.error e, store2)) :
    handle_state_channel_message env cl (.purchase sc) =
      (.error e, { cl with store := store2 }) ∧
    store2.waiting = rest ∧
    ({ cl with store := store2 } : RouterClient).state_channel.sent =
      cl.state_channel.sent := by
  have hwait : store2.waiting = rest := by
    have hpres := mk_state_channel_waiting env
      { cl.store with waiting := rest } sc (purchase_validation env (some p))
    rw [hmk] at hpres
    exact hpres
  refine ⟨?_, hwait, rfl⟩
  unfold handle_state_channel_message
  simp only [RouterStore.deque_packet, hw, hmk]

/-- Witness for C9 at concrete inputs: a purchase whose validator rejects
it; the single waiting packet is gone and nothing was sent. -/
theorem purchase_failure_discards_packet_witness :
    handle_state_channel_message envNoPurchase clientOneWaiting
        (.purchase (some wireOne)) =
      (.error (.other 9),
        { clientOneWaiting with
            store := { clientOneWaiting.store with waiting := [] } }) ∧
    ({ clientOneWaiting.store with waiting := [] } : RouterStore).waiting =
      ([] : List QuePacket) ∧
    ({ clientOneWaiting with
        store := { clientOneWaiting.store with waiting := [] } } :
      RouterClient).state_channel.sent = clientOneWaiting.state_channel.sent :=
  purchase_failure_discards_packet envNoPurchase clientOneWaiting
    (some wireOne) ⟨10, 0⟩ [] (.other 9)
    { clientOneWaiting.store with waiting := [] } rfl rfl

/-! ## C4: purchase handling -/

/-- C4: a Purchase message always dequeues the oldest waiting packet; the
carried channel state is reconciled with the purchase acceptance predicate
applied to that dequeued packet; on reconciliation success with an empty
queue the handler succeeds without sending (the `None` send is a no-op,
not an error), and with a dequeued packet it sends exactly the
purchase-time packet message for that packet. -/
theorem purchase_handling (env : Env) (cl : RouterClient)
    (sc : Option BlockchainStateChannelV1) :
    ((handle_state_channel_message env cl (.purchase sc)).2.store.waiting =
      cl.store.waiting.tail) ∧
    (∀ psc store2, cl.store.waiting = [] →
      mk_state_channel env cl.store sc (purchase_validation env none) =
        (.ok psc, store2) →
      handle_state_channel_message env cl (.purchase sc) =
        (.ok (), { cl with store := store2 })) ∧
    (∀ p rest psc store2 m, cl.store.waiting = p :: rest →
      mk_state_channel env { cl.store with waiting := rest } sc
          (purchase_validation env (some p)) = (.ok psc, store2) →
      env.mk_packet_msg p = .ok m →
      handle_state_channel_message env cl (.purchase sc) =
        (.ok (), { cl with
            store := store2,
            state_channel := cl.state_channel.send m })) := by
  refine ⟨?_, ?_, ?_⟩
  · unfold handle_state_channel_message
    cases hw : cl.store.waiting with
    | nil =>
      simp only [RouterStore.deque_packet, hw]
      cases hmk : mk_state_channel env cl.store sc
          (purchase_validation env none) with
      | mk r store2 =>
        have hwait : store2.waiting = cl.store.waiting := by
          have hpres := mk_state_channel_waiting env cl.store sc
            (purchase_validation env none)
          rw [hmk] at hpres
          exact hpres
        cases r with
        | error e => simp [hmk, hwait, hw]
        | ok psc => simp [hmk, send_packet_none, hwait, hw]
    | cons p rest =>
      simp only [RouterStore.deque_packet, hw]
      cases hmk : mk_state_channel env { cl.store with waiting := rest } sc
          (purchase_validation env (some p)) with
      | mk r store2 =>
        have hwait : store2.waiting = rest := by
          have hpres := mk_state_channel_waiting env
            { cl.store with waiting := rest } sc
            (purchase_validation env (some p))
          rw [hmk] at hpres
          exact hpres
        cases r with
        | error e => simp [hmk, hwait]
        | ok psc => simp [hmk, send_packet_store, hwait]
  · intro psc store2 hw hmk
    unfold handle_state_channel_message
    simp only [RouterStore.deque_packet, hw, hmk]
    rfl
  · intro p rest psc store2 m hw hmk hm
    unfold handle_state_channel_message
    simp only [RouterStore.deque_packet, hw, hmk]
    unfold send_packet
    simp only [hm]

/-- Witness for C4 at concrete inputs: one waiting packet, a purchase for
the trusted channel; the packet is dequeued and its purchase-time packet
message is sent. -/
theorem purchase_handling_witness :
    handle_state_channel_message envBase clientOneWaiting
        (.purchase (some wireOne)) =
      (.ok (), { clientOneWaiting with
          store := storePurchased,
          state_channel := clientOneWaiting.state_channel.send 21 }) :=
  (purchase_handling envBase clientOneWaiting (some wireOne)).2.2
    ⟨10, 0⟩ [] ⟨1, 1, 42⟩ storePurchased 21 rfl rfl rfl

/-! ## C6: connect on first packet -/

/-- C6: on uplink arrival with zero trusted channels, exactly one connect
call is issued, and with a nonzero count none is; in both cases the store
is untouched (the packet is not queued) and, when the packet message is
constructible, the packet is sent immediately as a direct packet message
and the handler succeeds. -/
theorem connect_on_first_packet (env : Env) (cl : RouterClient) (p : Nat) :
    ((cl.store.state_channel_count = 0 →
        (handle_uplink env cl p).2.state_channel.connects =
          cl.state_channel.connects + 1) ∧
      (cl.store.state_channel_count ≠ 0 →
        (handle_uplink env cl p).2.state_channel.connects =
          cl.state_channel.connects)) ∧
    (handle_uplink env cl p).2.store = cl.store ∧
    (∀ m, env.mk_packet_msg (QuePacket.from_packet p) = .ok m →
      (handle_uplink env cl p).1 = .ok () ∧
      (handle_uplink env cl p).2.state_channel.sent =
        cl.state_channel.sent ++ [m]) := by
  unfold handle_uplink
  by_cases h0 : cl.store.state_channel_count = 0
  · simp only [if_pos h0]
    unfold send_packet
    cases hm : env.mk_packet_msg (QuePacket.from_packet p) with
    | error e =>
      simp [hm, StateChannelService.connect, h0]
    | ok m2 =>
      simp [hm, StateChannelService.connect, StateChannelService.send, h0]
  · simp only [if_neg h0]
    unfold send_packet
    cases hm : env.mk_packet_msg (QuePacket.from_packet p) with
    | error e => simp [hm, h0]
    | ok m2 => simp [hm, StateChannelService.send, h0]

/-- Witness for C6 at concrete inputs: an empty store triggers exactly one
connect and the direct packet message for uplink packet 7 is sent. -/
theorem connect_on_first_packet_witness :
    (handle_uplink envBase clientThreeWaiting 7).2.state_channel.connects =
      clientThreeWaiting.state_channel.connects + 1 ∧
    (handle_uplink envBase clientThreeWaiting 7).1 = .ok () ∧
    (handle_uplink envBase clientThreeWaiting 7).2.state_channel.sent =
      clientThreeWaiting.state_channel.sent ++ [15] :=
  ⟨(connect_on_first_packet envBase clientThreeWaiting 7).1.1 rfl,
   ((connect_on_first_packet envBase clientThreeWaiting 7).2.2 15 rfl).1,
   ((connect_on_first_packet envBase clientThreeWaiting 7).2.2 15 rfl).2⟩

/-! ## Unfolding lemmas for the offer-flood loop -/

/-- The offer-flood loop on an empty queue stops successfully at once. -/
theorem send_packet_offers_loop_nil (env : Env) (cl : RouterClient)
    (hw : cl.store.waiting = []) :
    send_packet_offers_loop env cl = (.ok (), cl) := by
  rw [send_packet_offers_loop]
  simp only [RouterStore.pop_waiting_packet, RouterStore.deque_packet, hw]

/-- One failing `send_offer` aborts the loop with that error (the popped
packet is not re-queued). -/
theorem send_packet_offers_loop_err (env : Env) (cl cl2x : RouterClient)
    (p : QuePacket) (rest : List QuePacket) (e : Error)
    (hw : cl.store.waiting = p :: rest)
    (hsend : send_offer env
        { cl with store := { cl.store with waiting := rest } } p =
      (.error e, cl2x)) :
    send_packet_offers_loop env cl = (.error e, cl2x) := by
  rw [send_packet_offers_loop]
  simp only [RouterStore.pop_waiting_packet, RouterStore.deque_packet, hw]
  split
  next e2 cl2y heq =>
    rw [hsend] at heq
    simp only [Prod.mk.injEq, Except.error.injEq] at heq
    obtain ⟨h1, h2⟩ := heq
    subst h1
    subst h2
    rfl
  next cl2y heq =>
    rw [hsend] at heq
    simp at heq

/-- One successful `send_offer` that exhausts capacity: the loop stops
after re-queueing the popped packet. -/
theorem send_packet_offers_loop_stop (env : Env) (cl cl2x : RouterClient)
    (p : QuePacket) (rest : List QuePacket)
    (hw : cl.store.waiting = p :: rest)
    (hsend : send_offer env
        { cl with store := { cl.store with waiting := rest } } p =
      (.ok (), cl2x))
    (hz : cl2x.state_channel.capacity = 0) :
    send_packet_offers_loop env cl =
      (.ok (), { cl2x with store := cl2x.store.que_packet p }) := by
  rw [send_packet_offers_loop]
  simp only [RouterStore.pop_waiting_packet, RouterStore.deque_packet, hw]
  split
  next e2 cl2y heq =>
    rw [hsend] at heq
    simp at heq
  next cl2y heq =>
    rw [hsend] at heq
    simp only [Prod.mk.injEq] at heq
    obtain ⟨-, h2⟩ := heq
    subst h2
    rw [dif_pos hz]

/-- One successful `send_offer` with capacity left: the loop re-queues the
popped packet and continues. -/
theorem send_packet_offers_loop_go (env : Env) (cl cl2x : RouterClient)
    (p : QuePacket) (rest : List QuePacket)
    (hw : cl.store.waiting = p :: rest)
    (hsend : send_offer env
        { cl with store := { cl.store with waiting := rest } } p =
      (.ok (), cl2x))
    (hz : cl2x.state_channel.capacity ≠ 0) :
    send_packet_offers_loop env cl =
      send_packet_offers_loop env
        { cl2x with store := cl2x.store.que_packet p } := by
  rw [send_packet_offers_loop]
  simp only [RouterStore.pop_waiting_packet, RouterStore.deque_packet, hw]
  split
  next e2 cl2y heq =>
    rw [hsend] at heq
    simp at heq
  next cl2y heq =>
    rw [hsend] at heq
    simp only [Prod.mk.injEq] at heq
    obtain ⟨-, h2⟩ := heq
    subst h2
    rw [dif_neg hz]

/-- Iterated rotation is a permutation. -/
theorem rotate_iter_perm (n : Nat) (l : List QuePacket) :
    List.Perm (rotate_iter n l) l := by
  induction n generalizing l with
  | zero => exact List.Perm.refl l
  | succ n ih =>
    have h1 : List.Perm (rotate1 l) l := by
      cases l with
      | nil => simp [rotate1]
      | cons p rest => simp [rotate1, List.perm_append_singleton]
    exact (ih (rotate1 l)).trans h1

/-- Every successful run of the offer-flood loop leaves the waiting queue
an iterated rotation of what it was. -/
theorem send_packet_offers_loop_rotates (env : Env) :
    ∀ (N : Nat) (cl cl2 : RouterClient),
      cl.state_channel.capacity = N →
      send_packet_offers_loop env cl = (.ok (), cl2) →
      ∃ n, cl2.store.waiting = rotate_iter n cl.store.waiting := by
  intro N
  induction N using Nat.strong_induction_on with
  | _ N ih =>
    intro cl cl2 hcap hloop
    cases hw : cl.store.waiting with
    | nil =>
      rw [send_packet_offers_loop_nil env cl hw] at hloop
      rw [Prod.mk.injEq] at hloop
      refine ⟨0, ?_⟩
      rw [← hloop.2, hw]
      rfl
    | cons p rest =>
      cases hm : env.mk_offer_msg p with
      | error e =>
        have herr : send_offer env
            { cl with store := { cl.store with waiting := rest } } p =
            (.error e, { cl with store := { cl.store with waiting := rest } }) := by
          unfold send_offer
          rw [hm]
        rw [send_packet_offers_loop_err env cl _ p rest e hw herr] at hloop
        simp at hloop
      | ok m =>
        have hsend : send_offer env
            { cl with store := { cl.store with waiting := rest } } p =
            (.ok (), { cl with
                store := { cl.store with waiting := rest },
                state_channel := cl.state_channel.send m }) := by
          unfold send_offer
          rw [hm]
        by_cases hz : (cl.state_channel.send m).capacity = 0
        · rw [send_packet_offers_loop_stop env cl _ p rest hw hsend hz] at hloop
          rw [Prod.mk.injEq] at hloop
          refine ⟨1, ?_⟩
          rw [← hloop.2]
          simp [RouterStore.que_packet, rotate_iter, rotate1, hw]
        · rw [send_packet_offers_loop_go env cl _ p rest hw hsend hz] at hloop
          have hz2 : cl.state_channel.capacity - 1 ≠ 0 := hz
          obtain ⟨n, hn⟩ := ih (cl.state_channel.capacity - 1) (by omega)
            _ cl2 rfl hloop
          refine ⟨n + 1, ?_⟩
          rw [hn]
          simp [RouterStore.que_packet, rotate_iter, rotate1, hw]

/-! ## C3: offers re-queue, never drop, waiting packets -/

/-- C3: a successful offer flood leaves the waiting queue an iterated
rotation of what it was — every packet popped to have an offer sent is
re-queued at the back, and no packet leaves the queue because an offer
was sent for it (the queue is a permutation of the original; only
Purchase and Reject handling dequeue for good). -/
theorem offer_flood_requeues_packets (env : Env) (cl cl2 : RouterClient)
    (h : send_packet_offers env cl = (.ok (), cl2)) :
    (∃ n, cl2.store.waiting = rotate_iter n cl.store.waiting) ∧
    List.Perm cl2.store.waiting cl.store.waiting := by
  have key : ∃ n, cl2.store.waiting = rotate_iter n cl.store.waiting := by
    unfold send_packet_offers at h
    by_cases h0 : cl.state_channel.capacity = 0
    · rw [if_pos h0, Prod.mk.injEq] at h
      refine ⟨0, ?_⟩
      rw [← h.2]
      rfl
    · rw [if_neg h0] at h
      exact send_packet_offers_loop_rotates env cl.state_channel.capacity
        cl cl2 rfl h
  obtain ⟨n, hn⟩ := key
  refine ⟨⟨n, hn⟩, ?_⟩
  rw [hn]
  exact rotate_iter_perm n cl.store.waiting

/-- Witness for C3 at concrete inputs: a flood with capacity 2 over three
waiting packets leaves the queue a rotation (by two) of the original. -/
theorem offer_flood_requeues_packets_witness :
    (∃ n, clientThreeAfter.store.waiting =
      rotate_iter n clientThreeWaiting.store.waiting) ∧
    List.Perm clientThreeAfter.store.waiting
      clientThreeWaiting.store.waiting :=
  offer_flood_requeues_packets envBase clientThreeWaiting clientThreeAfter
    (by
      rw [send_packet_offers]
      rw [if_neg (by decide)]
      rw [send_packet_offers_loop]
      simp only [RouterStore.pop_waiting_packet, RouterStore.deque_packet,
        send_offer, envBase, clientThreeWaiting, StateChannelService.send,
        RouterStore.que_packet]
      rw [send_packet_offers_loop]
      simp [RouterStore.pop_waiting_packet, RouterStore.deque_packet,
        send_offer, envBase, StateChannelService.send,
        RouterStore.que_packet, clientThreeAfter])

/-- The offer-flood loop entered with positive capacity `N` and at least
`N` waiting packets sends exactly `N` offers, exhausts the capacity, and
rotates the queue by exactly `N`, leaving the remaining packets untouched
at its front. -/
theorem send_packet_offers_loop_exact (env : Env) :
    ∀ (N : Nat) (cl : RouterClient),
      cl.state_channel.capacity = N → 0 < N →
      N ≤ cl.store.waiting.length →
      (∀ p ∈ cl.store.waiting, (env.mk_offer_msg p).isOk = true) →
      ∃ cl2, send_packet_offers_loop env cl = (.ok (), cl2) ∧
        cl2.state_channel.sent.length =
          cl.state_channel.sent.length + N ∧
        cl2.store.waiting =
          cl.store.waiting.drop N ++ cl.store.waiting.take N ∧
        cl2.state_channel.capacity = 0 := by
  intro N
  induction N using Nat.strong_induction_on with
  | _ N ih =>
    intro cl hcap hpos hlen hok
    obtain ⟨M, rfl⟩ : ∃ M, N = M + 1 := ⟨N - 1, by omega⟩
    cases hw : cl.store.waiting with
    | nil =>
      rw [hw] at hlen
      simp at hlen
    | cons p rest =>
      have hokp : (env.mk_offer_msg p).isOk = true := by
        refine hok p ?_
        rw [hw]
        exact List.mem_cons_self p rest
      have hrlen : M ≤ rest.length := by
        rw [hw] at hlen
        simp at hlen
        omega
      cases hm : env.mk_offer_msg p with
      | error e =>
        rw [hm] at hokp
        simp [Except.isOk, Except.toBool] at hokp
      | ok m =>
        have hsend : send_offer env
            { cl with store := { cl.store with waiting := rest } } p =
            (.ok (), { cl with
                store := { cl.store with waiting := rest },
                state_channel := cl.state_channel.send m }) := by
          unfold send_offer
          rw [hm]
        by_cases hz : (cl.state_channel.send m).capacity = 0
        · -- capacity exhausted after this send: M = 0
          have hM : M = 0 := by
            have hz2 : cl.state_channel.capacity - 1 = 0 := hz
            omega
          subst hM
          refine ⟨_, send_packet_offers_loop_stop env cl _ p rest hw hsend hz,
            ?_, ?_, ?_⟩
          · simp [RouterStore.que_packet, StateChannelService.send]
          · simp [RouterStore.que_packet, hw]
          · exact hz
        · -- capacity left: recurse on the rotated state
          have hz2 : cl.state_channel.capacity - 1 ≠ 0 := hz
          have hMpos : 0 < M := by omega
          obtain ⟨cl2, hloop2, hsent2, hwait2, hcap2⟩ :=
            ih M (by omega)
              { store := { cl.store with waiting := rest ++ [p] }
                state_channel := cl.state_channel.send m
                gateway := cl.gateway
                downlinks := cl.downlinks }
              (by
                show cl.state_channel.capacity - 1 = M
                omega)
              hMpos
              (by
                show M ≤ (rest ++ [p]).length
                simp
                omega)
              (by
                intro q hq
                refine hok q ?_
                rw [hw]
                simp at hq
                rcases hq with hq | hq
                · exact List.mem_cons_of_mem p hq
                · rw [hq]
                  exact List.mem_cons_self p rest)
          refine ⟨cl2, ?_, ?_, ?_, hcap2⟩
          · rw [send_packet_offers_loop_go env cl _ p rest hw hsend hz]
            exact hloop2
          · simp only [StateChannelService.send, List.length_append,
              List.length_cons, List.length_nil] at hsent2
            simp only [hsent2]
            omega
          · rw [hwait2]
            simp only [List.drop_succ_cons, List.take_succ_cons]
            rw [List.drop_append_of_le_length hrlen,
              List.take_append_of_le_length hrlen]
            simp

/-! ## C5: offer flood respects capacity -/

/-- C5: a flood started with capacity `N` over at least `N` waiting
packets (whose offers are all constructible) returns success, sends
exactly `N` offers, exhausts the capacity, and stops with the remaining
packets untouched, in order, at the front of the queue; with capacity 0 no
offer is sent. -/
theorem offer_flood_respects_capacity (env : Env) (cl : RouterClient)
    (N : Nat) (hcap : cl.state_channel.capacity = N)
    (hlen : N ≤ cl.store.waiting.length)
    (hok : ∀ p ∈ cl.store.waiting, (env.mk_offer_msg p).isOk = true) :
    ∃ cl2, send_packet_offers env cl = (.ok (), cl2) ∧
      cl2.state_channel.sent.length =
        cl.state_channel.sent.length + N ∧
      cl2.store.waiting =
        cl.store.waiting.drop N ++ cl.store.waiting.take N ∧
      cl2.state_channel.capacity = 0 := by
  unfold send_packet_offers
  by_cases h0 : cl.state_channel.capacity = 0
  · rw [if_pos h0]
    have hN : N = 0 := by omega
    subst hN
    exact ⟨cl, rfl, by omega, by simp, h0⟩
  · rw [if_neg h0]
    exact send_packet_offers_loop_exact env N cl hcap (by omega) hlen hok

/-- Witness for C5 at concrete inputs: capacity 2, three waiting packets —
exactly two offers are sent and the flood stops with the third packet
untouched at the front of the queue. -/
theorem offer_flood_respects_capacity_witness :
    ∃ cl2, send_packet_offers envBase clientThreeWaiting = (.ok (), cl2) ∧
      cl2.state_channel.sent.length =
        clientThreeWaiting.state_channel.sent.length + 2 ∧
      cl2.store.waiting = clientThreeWaiting.store.waiting.drop 2 ++
        clientThreeWaiting.store.waiting.take 2 ∧
      cl2.state_channel.capacity = 0 :=
  offer_flood_respects_capacity envBase clientThreeWaiting 2 rfl
    (by decide) (by decide)

end RouterClientModel
